import Mathlib

/-!
Verification development for the Locci Scheduler demo HTTP handler
(src/api/handler.rs). The handler logic is shallowly embedded: raw strings
that can carry non-UTF-8 bytes (query strings before/after percent-decoding,
request bodies) are modelled as `List Nat` of byte values; Rust `String`
values that stay valid UTF-8 (paths, messages, trace ids, JSON string
values) are modelled as Lean `String`. External collaborators (the
serde_json textual parser, the UjumbeSMS provider client, the environment)
are parameters of the handler; the repository's own logic (query parsing,
body interpretation, path selection, dispatch orchestration, response
assembly) is embedded concretely.
-/

namespace Scheduler

/-- JSON values, modelling `serde_json::Value`. Object fields are kept as an
ordered list of (name, value) pairs so that duplicate keys surviving the
textual parse are representable. -/
inductive Json where
  | null : Json
  | bool (b : Bool) : Json
  | num (n : Int) : Json
  | str (s : String) : Json
  | arr (elems : List Json) : Json
  | obj (fields : List (String × Json)) : Json

/-- `struct RequestData` of src/api/handler.rs lines 12-18: three
independently optional string fields. -/
structure RequestData where
  phone : Option String
  message : Option String
  sender_id : Option String
  deriving DecidableEq, Repr

/-- ASCII hex digit to its value, as used by percent-decoding. -/
def hexVal (b : Nat) : Option Nat :=
  if 48 ≤ b ∧ b ≤ 57 then some (b - 48)
  else if 65 ≤ b ∧ b ≤ 70 then some (b - 55)
  else if 97 ≤ b ∧ b ≤ 102 then some (b - 87)
  else none

/-- Percent-decoding at the byte level, as `urlencoding::decode_binary`:
a `%` followed by two hex digits becomes the decoded byte; a `%` not
followed by two hex digits is kept literally and scanning continues with
the following bytes. 37 is the byte value of the percent sign. -/
def percentDecodeAux : Nat → List Nat → List Nat
  | 0, _ => []
  | _ + 1, [] => []
  | fuel + 1, 37 :: h :: l :: rest =>
    match hexVal h, hexVal l with
    | some hv, some lv => (16 * hv + lv) :: percentDecodeAux fuel rest
    | _, _ => 37 :: percentDecodeAux fuel (h :: l :: rest)
  | fuel + 1, b :: rest => b :: percentDecodeAux fuel rest

/-- Percent-decoding at the byte level, driven by a fuel bounded by the
input length (each step consumes at least one byte, so the fuel never runs
out on the actual input). -/
def percentDecodeBytes (l : List Nat) : List Nat :=
  percentDecodeAux l.length l

/-- Continuation-byte test for UTF-8 validity: byte in 0x80..0xBF. -/
def isCont (b : Nat) : Bool := 128 ≤ b ∧ b ≤ 191

/-- UTF-8 validity of a byte sequence, with the exact shortest-form and
surrogate restrictions that `String::from_utf8` enforces. -/
def isUtf8 : List Nat → Bool
  | [] => true
  | b :: rest =>
    if b ≤ 127 then isUtf8 rest
    else if 194 ≤ b ∧ b ≤ 223 then
      match rest with
      | c1 :: r => isCont c1 && isUtf8 r
      | _ => false
    else if b = 224 then
      match rest with
      | c1 :: c2 :: r => (160 ≤ c1 ∧ c1 ≤ 191 : Bool) && isCont c2 && isUtf8 r
      | _ => false
    else if (225 ≤ b ∧ b ≤ 236) ∨ b = 238 ∨ b = 239 then
      match rest with
      | c1 :: c2 :: r => isCont c1 && isCont c2 && isUtf8 r
      | _ => false
    else if b = 237 then
      match rest with
      | c1 :: c2 :: r => (128 ≤ c1 ∧ c1 ≤ 159 : Bool) && isCont c2 && isUtf8 r
      | _ => false
    else if b = 240 then
      match rest with
      | c1 :: c2 :: c3 :: r =>
        (144 ≤ c1 ∧ c1 ≤ 191 : Bool) && isCont c2 && isCont c3 && isUtf8 r
      | _ => false
    else if 241 ≤ b ∧ b ≤ 243 then
      match rest with
      | c1 :: c2 :: c3 :: r => isCont c1 && isCont c2 && isCont c3 && isUtf8 r
      | _ => false
    else if b = 244 then
      match rest with
      | c1 :: c2 :: c3 :: r =>
        (128 ≤ c1 ∧ c1 ≤ 143 : Bool) && isCont c2 && isCont c3 && isUtf8 r
      | _ => false
    else false

/-- `urlencoding::decode(..).unwrap_or_default()` as used at
src/api/handler.rs lines 45-46: percent-decode the bytes, and if the result
is not valid UTF-8 substitute the empty string. -/
def decodeOrEmpty (bytes : List Nat) : List Nat :=
  let d := percentDecodeBytes bytes
  if isUtf8 d then d else []

/-- Rust `str::split(sep)` at the byte level: always yields at least one
(possibly empty) segment, and adjacent separators yield empty segments. -/
def splitSep (sep : Nat) : List Nat → List (List Nat)
  | [] => [[]]
  | b :: rest =>
    if b = sep then [] :: splitSep sep rest
    else
      match splitSep sep rest with
      | s :: ss => (b :: s) :: ss
      | [] => [[b]]

/-- Rust `str::split_once(sep)`: split at the first occurrence of the
separator, or `none` when the separator does not occur. -/
def splitOnce (sep : Nat) : List Nat → Option (List Nat × List Nat)
  | [] => none
  | b :: rest =>
    if b = sep then some ([], rest)
    else (splitOnce sep rest).map (fun p => (b :: p.1, p.2))

/-- `HashMap::insert` semantics on an association list: a later insert with
an existing key overwrites that key's value, otherwise the pair is added. -/
def mapInsert (m : List (List Nat × List Nat)) (k v : List Nat) :
    List (List Nat × List Nat) :=
  if m.any (fun p => p.1 = k) then
    m.map (fun p => if p.1 = k then (k, v) else p)
  else m ++ [(k, v)]

/-- `fn parse_query_params` of src/api/handler.rs lines 38-58: an absent
query string gives the empty map; otherwise split on the byte 38 (the
ampersand), split each pair at the first byte 61 (the equals sign) skipping
pairs without one, percent-decode key and value with empty-string fallback,
and insert into the map. -/
def parse_query_params (query : Option (List Nat)) :
    List (List Nat × List Nat) :=
  match query with
  | none => []
  | some q =>
    (splitSep 38 q).foldl
      (fun params pair =>
        match splitOnce 61 pair with
        | some (key, value) => mapInsert params (decodeOrEmpty key) (decodeOrEmpty value)
        | none => params)
      []

/-- Deserializing `Option<String>` from a JSON value, as serde does for each
field of `RequestData`: `null` gives an absent value, a string gives a
present value, anything else is a type error. -/
def decodeOptStr : Json → Option (Option String)
  | Json.null => some none
  | Json.str s => some (some s)
  | _ => none

/-- The values bound to a given field name in a JSON object, in order. -/
def fieldOccurrences (name : String) (fields : List (String × Json)) :
    List Json :=
  (fields.filter (fun p => p.1 = name)).map (fun p => p.2)

/-- Reading one optional string field from an object, as serde's derived
visitor: an absent field is `None`, a single occurrence must be `null` or a
string, and a duplicate occurrence of a known field is an error. -/
def getOptField (name : String) (fields : List (String × Json)) :
    Option (Option String) :=
  match fieldOccurrences name fields with
  | [] => some none
  | [v] => decodeOptStr v
  | _ => none

/-- The derived `Deserialize` for `RequestData` (src/api/handler.rs lines
12-18) applied to a parsed JSON value: an object is read field-wise with
unknown fields ignored; a three-element array is read positionally (serde's
seq form for structs); everything else fails. -/
def deserializeRequestData : Json → Option RequestData
  | Json.obj fields => do
    let phone ← getOptField "phone" fields
    let message ← getOptField "message" fields
    let sender_id ← getOptField "sender_id" fields
    pure ⟨phone, message, sender_id⟩
  | Json.arr [p, m, s] => do
    let phone ← decodeOptStr p
    let message ← decodeOptStr m
    let sender_id ← decodeOptStr s
    pure ⟨phone, message, sender_id⟩
  | _ => none

/-- UTF-8 encoding of one unicode scalar value. -/
def encodeChar (c : Char) : List Nat :=
  let n := c.toNat
  if n < 128 then [n]
  else if n < 2048 then [192 + n / 64, 128 + n % 64]
  else if n < 65536 then [224 + n / 4096, 128 + (n / 64) % 64, 128 + n % 64]
  else [240 + n / 262144, 128 + (n / 4096) % 64, 128 + (n / 64) % 64, 128 + n % 64]

/-- The UTF-8 bytes of a string, as Rust `String::into_bytes`. -/
def utf8Bytes (s : String) : List Nat := s.toList.flatMap encodeChar

/-- `vercel_runtime::Body`: an inbound request body is binary bytes, text,
or absent. -/
inductive Body where
  | binary (bytes : List Nat) : Body
  | text (t : String) : Body
  | empty : Body

/-- Body normalization of src/api/handler.rs lines 140-153: binary bodies
keep their bytes, text bodies are their UTF-8 bytes, an absent body is the
empty byte vector. -/
def bodyBytes : Body → List Nat
  | Body.binary bs => bs
  | Body.text t => utf8Bytes t
  | Body.empty => []

/-- Outcome of one provider send as observed by the handler: the provider's
JSON payload on success, or the error's display string on failure. The
`send_sms` wrapper (src/api/handler.rs lines 60-81) never raises past this
boundary in the orchestrator, which matches on the `Result`. -/
inductive DispatchOutcome where
  | providerResponse (payload : Json) : DispatchOutcome
  | providerError (msg : String) : DispatchOutcome

/-- The external SMS collaborator: client construction from the two
credentials (which can fail), and the per-request send capability, modelled
as a pure oracle giving the outcome of the single awaited provider call for
given (phone, message, sender id) arguments. -/
structure SmsEffects where
  clientInit : String → String → Except String Unit
  send : String → String → String → DispatchOutcome

/-- One attempted provider dispatch: (phone, message, sender id). -/
abbrev SendEvent : Type :=
  String × String × String

/-- The inbound request as the platform adapter presents it to the handler:
method, path, optional raw query string (bytes), and body. -/
structure Request where
  path : String
  method : String
  query : Option (List Nat)
  body : Body

/-- `struct RequestInfo` of src/api/handler.rs lines 29-34. -/
structure RequestInfo where
  has_body_data : Bool
  query_params : List (List Nat × List Nat)
  path : String
  method : String

/-- `struct ApiResponse` of src/api/handler.rs lines 20-26. -/
structure ApiResponse where
  message : String
  data : Option Json
  request_info : RequestInfo
  trace_id : String

/-- The outbound HTTP response: status code, headers in the order the
builder attaches them, and the response envelope (kept structured; its JSON
serialization is injective on this shape, so claims are stated against the
structured value). -/
structure HttpResponse where
  status : Nat
  headers : List (String × String)
  body : ApiResponse

/-- Ways the handler itself returns `Err` to the platform: a missing
environment variable (src/api/handler.rs lines 93-113) or a failed client
construction (lines 117-126). -/
inductive HandlerError where
  | missingEnvVar (name : String) : HandlerError
  | clientInitError (msg : String) : HandlerError

/-- The handler's observable result: the response together with the ordered
trace of provider dispatch attempts it performed. -/
structure HandlerResult where
  response : HttpResponse
  sends : List SendEvent

/-- The headers the response builder attaches, in order
(src/api/handler.rs lines 254-266). -/
def stdHeaders (trace_id : String) : List (String × String) :=
  [("Content-Type", "application/json"),
   ("Access-Control-Allow-Origin", "*"),
   ("Access-Control-Allow-Methods", "GET, POST, PUT, DELETE, OPTIONS"),
   ("Access-Control-Allow-Headers", "Content-Type, Authorization"),
   ("X-Trace-Id", trace_id)]

/-- The hardcoded default dispatch triple of src/api/handler.rs lines
191-193: phone, message, sender id. -/
def defaultSend : SendEvent :=
  ("254717135176", "Scheduled message from Locci Scheduler", "UjumbeSMS")

/-- The body interpretation of src/api/handler.rs lines 155-180: an empty
byte body yields no structured data, a non-empty body is handed to the
serde_json parser and deserialized; parse or shape failure also yields no
structured data (the raw text is only logged). -/
def interpretBody (parseJson : List Nat → Option Json) (body_bytes : List Nat) :
    Option RequestData :=
  if !body_bytes.isEmpty then
    (parseJson body_bytes).bind deserializeRequestData
  else none

/-- The Path A/B selection of src/api/handler.rs lines 183-205: when body
data or query parameters are present the fixed greeting is returned with no
send; otherwise the default SMS is dispatched and its outcome shapes the
message and data. Returns (message, data, dispatch events). -/
def selectPathAB (fx : SmsEffects) (request_data : Option RequestData)
    (query_params : List (List Nat × List Nat)) :
    String × Option Json × List SendEvent :=
  if request_data.isSome || !query_params.isEmpty then
    ("Hello from Locci Scheduler - Data received!", none, [])
  else
    match fx.send "254717135176" "Scheduled message from Locci Scheduler" "UjumbeSMS" with
    | DispatchOutcome.providerResponse r =>
      ("SMS sent successfully", some r, [defaultSend])
    | DispatchOutcome.providerError e =>
      ("Failed to send SMS", some (Json.obj [("error", Json.str e)]), [defaultSend])

/-- The Path C override of src/api/handler.rs lines 208-234: when body data
is present with both phone and message populated, a custom SMS is sent
(sender id defaulting to the fixed literal) and its outcome replaces the
data; otherwise the Path A/B data is kept. Returns (data, dispatch
events). -/
def selectPathC (fx : SmsEffects) (request_data : Option RequestData)
    (sms_response_data : Option Json) : Option Json × List SendEvent :=
  match request_data with
  | some data =>
    match data.phone, data.message with
    | some phone, some msg =>
      let sender := data.sender_id.getD "UjumbeSMS"
      (match fx.send phone msg sender with
       | DispatchOutcome.providerResponse r => (some r, [(phone, msg, sender)])
       | DispatchOutcome.providerError e =>
         (some (Json.obj [("error", Json.str e)]), [(phone, msg, sender)]))
    | _, _ => (sms_response_data, [])
  | none => (sms_response_data, [])

/-- The handler body after credential loading and client construction
succeed (src/api/handler.rs lines 129-277): request info, body
interpretation, Path A/B selection, Path C override, response assembly.
Always produces a response; also returns the ordered list of SMS dispatch
attempts. -/
def handlerCore (fx : SmsEffects) (parseJson : List Nat → Option Json)
    (trace_id : String) (req : Request) : HandlerResult :=
  let query_params := parse_query_params req.query
  let request_data := interpretBody parseJson (bodyBytes req.body)
  let ab := selectPathAB fx request_data query_params
  let c := selectPathC fx request_data ab.2.1
  { response :=
      { status := 200
        headers := stdHeaders trace_id
        body :=
          { message := ab.1
            data := c.1
            request_info :=
              { has_body_data := request_data.isSome
                query_params := query_params
                path := req.path
                method := req.method }
            trace_id := trace_id } }
    sends := ab.2.2 ++ c.2 }

/-- `pub async fn handler` of src/api/handler.rs lines 84-277, embedded.
Parameters stand for the ambient collaborators: `env` is `std::env::var`,
`fx` the UjumbeSMS client, `parseJson` the serde_json textual parser
applied to body bytes (returning the parsed JSON value or `none` on a
syntax error), and `trace_id` the freshly generated UUID for this request.
A missing credential or failed client construction returns `Err` for this
request; otherwise the core runs and a response is always produced. -/
def handler (env : String → Option String) (fx : SmsEffects)
    (parseJson : List Nat → Option Json) (trace_id : String) (req : Request) :
    Except HandlerError HandlerResult :=
  match env "UJUMBESMS_API_KEY" with
  | none => Except.error (HandlerError.missingEnvVar "UJUMBESMS_API_KEY")
  | some api_key =>
    match env "UJUMBESMS_EMAIL" with
    | none => Except.error (HandlerError.missingEnvVar "UJUMBESMS_EMAIL")
    | some email =>
      match fx.clientInit api_key email with
      | Except.error e => Except.error (HandlerError.clientInitError e)
      | Except.ok _ => Except.ok (handlerCore fx parseJson trace_id req)

/-- Header lookup by name (first occurrence), for stating header claims. -/
def headerValue (headers : List (String × String)) (name : String) :
    Option String :=
  (headers.find? (fun p => p.1 = name)).map (fun p => p.2)

/-- The fixed Path A greeting text (src/api/handler.rs line 187). -/
def greetingMessage : String :=
  "Hello from Locci Scheduler - Data received!"

/-- The response message chosen for a default-send outcome
(src/api/handler.rs lines 195-204). -/
def outcomeMessage : DispatchOutcome → String
  | DispatchOutcome.providerResponse _ => "SMS sent successfully"
  | DispatchOutcome.providerError _ => "Failed to send SMS"

/-- The data payload stored for a dispatch outcome: the provider payload on
success, the in-band error object on failure (src/api/handler.rs lines
195-204 and 213-222). -/
def outcomeJson : DispatchOutcome → Json
  | DispatchOutcome.providerResponse r => r
  | DispatchOutcome.providerError e => Json.obj [("error", Json.str e)]

/-- The Query Parser algorithm as §4.1 of the spec words it: split the raw
string on the ampersand into candidate pairs, split each pair on the first
equals sign silently skipping pairs lacking one, percent-decode key and
value independently substituting the empty string for a side whose decoding
fails, and collect into a mapping where a later duplicate key overwrites
the earlier one; an absent query string yields the empty mapping. Stated
for comparison with `parse_query_params` above. -/
def parseQuerySpec (query : Option (List Nat)) : List (List Nat × List Nat) :=
  match query with
  | none => []
  | some q =>
    ((splitSep 38 q).filterMap (fun pair =>
        (splitOnce 61 pair).map (fun kv => (decodeOrEmpty kv.1, decodeOrEmpty kv.2)))).foldl
      (fun m kv => mapInsert m kv.1 kv.2) []

/-! Concrete fixtures used by witnesses and counterexamples. -/

/-- An environment carrying both provider credentials. -/
def envBoth : String → Option String := fun n =>
  if n = "UJUMBESMS_API_KEY" then some "key0"
  else if n = "UJUMBESMS_EMAIL" then some "mail0" else none

/-- An environment carrying only the API key, not the account email. -/
def envKeyOnly : String → Option String := fun n =>
  if n = "UJUMBESMS_API_KEY" then some "key0" else none

/-- An SMS collaborator whose client construction succeeds and whose sends
all succeed with a null payload. -/
def fxOk : SmsEffects :=
  { clientInit := fun _ _ => Except.ok ()
    send := fun _ _ _ => DispatchOutcome.providerResponse Json.null }

/-- A parser fixture: every byte sequence parses to an object populating
phone and message. -/
def pjPhoneMsg : List Nat → Option Json := fun _ =>
  some (Json.obj [("phone", Json.str "254700000000"), ("message", Json.str "hi")])

/-- A parser fixture: every byte sequence parses to the empty object. -/
def pjEmptyObj : List Nat → Option Json := fun _ =>
  some (Json.obj [])

/-- A parser fixture: every byte sequence parses to an object whose phone
field holds a number. -/
def pjBadPhone : List Nat → Option Json := fun _ =>
  some (Json.obj [("phone", Json.num 123)])

/-- A request with a non-empty (one-byte) binary body and no query
string. -/
def reqBody : Request :=
  { path := "/", method := "POST", query := none, body := Body.binary [123] }

/-- A request with an absent body and no query string. -/
def reqEmpty : Request :=
  { path := "/", method := "GET", query := none, body := Body.empty }

/-- An environment carrying neither credential. -/
def envNone : String → Option String := fun _ => none

/-! Helper lemmas. -/

/-- A successful handler run is exactly a run of the post-initialization
core: the only `Err` exits are the credential and client-construction
checks. -/
theorem handler_ok_elim (env : String → Option String) (fx : SmsEffects)
    (pj : List Nat → Option Json) (tid : String) (req : Request)
    (r : HandlerResult) (hok : handler env fx pj tid req = Except.ok r) :
    r = handlerCore fx pj tid req := by
  unfold handler at hok
  split at hok
  · exact Except.noConfusion hok
  split at hok
  · exact Except.noConfusion hok
  split at hok
  · exact Except.noConfusion hok
  injection hok with h
  exact h.symm

/-- The core performs at most one provider dispatch on any input: a present
body suppresses the default send, and an absent body suppresses the custom
send. -/
theorem handlerCore_sends_length (fx : SmsEffects) (pj : List Nat → Option Json)
    (tid : String) (req : Request) :
    (handlerCore fx pj tid req).sends.length ≤ 1 := by
  simp only [handlerCore]
  cases hrd : interpretBody pj (bodyBytes req.body) with
  | none =>
    simp only [selectPathAB, selectPathC, Option.isSome_none, Bool.false_or]
    split
    · simp
    · split <;> simp
  | some d =>
    simp only [selectPathAB, selectPathC, Option.isSome_some, Bool.true_or, if_true]
    obtain ⟨ph, ms, sd⟩ := d
    cases ph with
    | none => simp
    | some p =>
      cases ms with
      | none => simp
      | some m => split <;> (split <;> simp)

/-- A known field bound to a value that is neither a string nor null makes
that field's read fail. -/
theorem getOptField_eq_none_of_bad (name : String) (v : Json)
    (fields : List (String × Json)) (hmem : (name, v) ∈ fields)
    (hbad : decodeOptStr v = none) :
    getOptField name fields = none := by
  have hv : v ∈ fieldOccurrences name fields := by
    simp only [fieldOccurrences]
    exact List.mem_map_of_mem _ (List.mem_filter.2 ⟨hmem, by simp⟩)
  unfold getOptField
  cases hocc : fieldOccurrences name fields with
  | nil => rw [hocc] at hv; cases hv
  | cons a tl =>
    cases tl with
    | nil =>
      rw [hocc] at hv
      simp only [List.mem_singleton] at hv
      rw [← hv]
      exact hbad
    | cons b tl2 => rfl

/-- If any of the three known field reads fails, deserialization of the
object fails. -/
theorem deserializeRequestData_obj_none (fields : List (String × Json))
    (h : getOptField "phone" fields = none ∨
      getOptField "message" fields = none ∨
      getOptField "sender_id" fields = none) :
    deserializeRequestData (Json.obj fields) = none := by
  rcases h with h | h | h
  · simp [deserializeRequestData, h]
  · cases hp : getOptField "phone" fields <;>
      simp [deserializeRequestData, hp, h]
  · cases hp : getOptField "phone" fields <;>
      cases hm : getOptField "message" fields <;>
        simp [deserializeRequestData, hp, hm, h]

/-- Folding the parser's per-pair step equals folding the insert step over
the decoded pairs collected by filterMap. -/
theorem foldl_query_pairs (l : List (List Nat)) (acc : List (List Nat × List Nat)) :
    l.foldl (fun params pair =>
      match splitOnce 61 pair with
      | some (key, value) => mapInsert params (decodeOrEmpty key) (decodeOrEmpty value)
      | none => params) acc =
    (l.filterMap (fun pair =>
      (splitOnce 61 pair).map (fun kv => (decodeOrEmpty kv.1, decodeOrEmpty kv.2)))).foldl
      (fun m kv => mapInsert m kv.1 kv.2) acc := by
  induction l generalizing acc with
  | nil => rfl
  | cons a tl ih =>
    cases hsp : splitOnce 61 a with
    | none => simp [List.foldl_cons, List.filterMap_cons, hsp, ih]
    | some kv =>
      obtain ⟨k1, v1⟩ := kv
      simp [List.foldl_cons, List.filterMap_cons, hsp, ih]

/-! Claim theorems. -/

/-- C1 (counterexample): at a concrete request whose body populates both
phone and message (Path C's preconditions hold), the handler succeeds, the
default Path B dispatch triple is NOT among the performed sends, and
exactly one send occurs — refuting the claim that the Path B default SMS
send still executes before the custom send. -/
theorem claimC1_counterexample :
    (handler envBoth fxOk pjPhoneMsg "trace0" reqBody).toOption.map
        (fun r => (decide (defaultSend ∈ r.sends), r.sends.length)) =
      some (false, 1) := by rfl

/-- C1 (amended): for every request in which Path C's preconditions hold
(body data present with both phone and message populated), the greeting
path is selected for the message, the Path B default send does NOT execute,
and the single custom send's dispatch outcome populates the data field
(replacing the greeting path's null data). -/
theorem claimC1_amended (env : String → Option String) (fx : SmsEffects)
    (parseJson : List Nat → Option Json) (trace_id : String) (req : Request)
    (k em : String) (d : RequestData) (p m : String)
    (hk : env "UJUMBESMS_API_KEY" = some k)
    (he : env "UJUMBESMS_EMAIL" = some em)
    (hc : fx.clientInit k em = Except.ok ())
    (hb : bodyBytes req.body ≠ [])
    (hp : (parseJson (bodyBytes req.body)).bind deserializeRequestData = some d)
    (hphone : d.phone = some p)
    (hmsg : d.message = some m) :
    handler env fx parseJson trace_id req = Except.ok
      { response :=
          { status := 200
            headers := stdHeaders trace_id
            body :=
              { message := greetingMessage
                data := some (outcomeJson (fx.send p m (d.sender_id.getD "UjumbeSMS")))
                request_info :=
                  { has_body_data := true
                    query_params := parse_query_params req.query
                    path := req.path
                    method := req.method }
                trace_id := trace_id } }
        sends := [(p, m, d.sender_id.getD "UjumbeSMS")] } := by
  simp only [handler, hk, he, hc]
  have hb2 : (bodyBytes req.body).isEmpty = false := by
    cases hbb : bodyBytes req.body
    · exact absurd hbb hb
    · rfl
  simp only [handlerCore, interpretBody, hb2, Bool.not_false, if_true, hp]
  cases h : fx.send p m (d.sender_id.getD "UjumbeSMS") <;>
    simp [selectPathAB, selectPathC, hphone, hmsg, h, outcomeJson, greetingMessage]

/-- C1 (witness): the amended theorem applied at a concrete request whose
body carries phone and message. -/
theorem claimC1_witness :
    (handler envBoth fxOk pjPhoneMsg "trace0" reqBody).toOption.map
        (fun r => (r.response.body.message, r.sends)) =
      some (greetingMessage, [("254700000000", "hi", "UjumbeSMS")]) := by
  rw [claimC1_amended envBoth fxOk pjPhoneMsg "trace0" reqBody "key0" "mail0"
    ⟨some "254700000000", some "hi", none⟩ "254700000000" "hi"
    rfl rfl rfl (by decide) rfl rfl rfl]
  rfl

/-- C2: for every request whose body deserializes with both phone and
message populated and whose query parameters are empty, the response
message is the fixed Path A greeting while the data field holds the Path C
custom-send outcome (provider payload or in-band error object), not null. -/
theorem claimC2_greeting_with_custom_data (env : String → Option String)
    (fx : SmsEffects) (parseJson : List Nat → Option Json)
    (trace_id : String) (req : Request) (k em : String) (d : RequestData)
    (p m : String)
    (hk : env "UJUMBESMS_API_KEY" = some k)
    (he : env "UJUMBESMS_EMAIL" = some em)
    (hc : fx.clientInit k em = Except.ok ())
    (hq : parse_query_params req.query = [])
    (hb : bodyBytes req.body ≠ [])
    (hp : (parseJson (bodyBytes req.body)).bind deserializeRequestData = some d)
    (hphone : d.phone = some p)
    (hmsg : d.message = some m) :
    handler env fx parseJson trace_id req = Except.ok
      { response :=
          { status := 200
            headers := stdHeaders trace_id
            body :=
              { message := greetingMessage
                data := some (outcomeJson (fx.send p m (d.sender_id.getD "UjumbeSMS")))
                request_info :=
                  { has_body_data := true
                    query_params := []
                    path := req.path
                    method := req.method }
                trace_id := trace_id } }
        sends := [(p, m, d.sender_id.getD "UjumbeSMS")] } := by
  simp only [handler, hk, he, hc]
  have hb2 : (bodyBytes req.body).isEmpty = false := by
    cases hbb : bodyBytes req.body
    · exact absurd hbb hb
    · rfl
  simp only [handlerCore, interpretBody, hb2, Bool.not_false, if_true, hp, hq]
  cases h : fx.send p m (d.sender_id.getD "UjumbeSMS") <;>
    simp [selectPathAB, selectPathC, hphone, hmsg, h, outcomeJson, greetingMessage]

/-- C2 (witness): the theorem applied at a concrete request with phone and
message populated and no query string. -/
theorem claimC2_witness :
    (handler envBoth fxOk pjPhoneMsg "trace0" reqBody).toOption.map
        (fun r => (r.response.body.message, r.response.body.data)) =
      some (greetingMessage, some Json.null) := by
  rw [claimC2_greeting_with_custom_data envBoth fxOk pjPhoneMsg "trace0" reqBody
    "key0" "mail0" ⟨some "254700000000", some "hi", none⟩ "254700000000" "hi"
    rfl rfl rfl rfl (by decide) rfl rfl rfl]
  rfl

/-- C3 (counterexample): with both credentials unset, the handler returns a
per-request error for a concrete request — refuting the claim that a
missing credential is never surfaced as a per-request failure of the
handler (the code reads the environment inside the handler, not at process
start). -/
theorem claimC3_counterexample :
    handler envNone fxOk pjPhoneMsg "trace0" reqEmpty =
      Except.error (HandlerError.missingEnvVar "UJUMBESMS_API_KEY") := by rfl

/-- C3 (amended): absence of either provider credential is surfaced as a
per-request failure: the handler returns an error for that request (before
any parsing or dispatch), for the API key when it is unset and for the
account email when only it is unset. -/
theorem claimC3_amended (env : String → Option String) (fx : SmsEffects)
    (pj : List Nat → Option Json) (tid : String) (req : Request) :
    (env "UJUMBESMS_API_KEY" = none →
      handler env fx pj tid req =
        Except.error (HandlerError.missingEnvVar "UJUMBESMS_API_KEY")) ∧
    (∀ k, env "UJUMBESMS_API_KEY" = some k → env "UJUMBESMS_EMAIL" = none →
      handler env fx pj tid req =
        Except.error (HandlerError.missingEnvVar "UJUMBESMS_EMAIL")) := by
  constructor
  · intro h
    simp [handler, h]
  · intro k hk he
    simp [handler, hk, he]

/-- C3 (witness): the amended theorem applied to an environment carrying
only the API key. -/
theorem claimC3_witness :
    handler envKeyOnly fxOk pjPhoneMsg "trace0" reqEmpty =
      Except.error (HandlerError.missingEnvVar "UJUMBESMS_EMAIL") :=
  (claimC3_amended envKeyOnly fxOk pjPhoneMsg "trace0" reqEmpty).2 "key0" rfl rfl

/-- C4: for every request with an empty or absent body and empty query
parameters, the default SMS dispatch is attempted with the fixed hardcoded
phone, message and sender id; on provider success the message is the
success string with data holding the provider payload, on provider failure
the message is the failure string with data holding the in-band error
payload, and the HTTP status is 200 in both cases. -/
theorem claimC4_empty_body_default_sms (env : String → Option String)
    (fx : SmsEffects) (parseJson : List Nat → Option Json)
    (trace_id : String) (req : Request) (k em : String)
    (hk : env "UJUMBESMS_API_KEY" = some k)
    (he : env "UJUMBESMS_EMAIL" = some em)
    (hc : fx.clientInit k em = Except.ok ())
    (hb : bodyBytes req.body = [])
    (hq : parse_query_params req.query = []) :
    handler env fx parseJson trace_id req = Except.ok
      { response :=
          { status := 200
            headers := stdHeaders trace_id
            body :=
              { message := outcomeMessage
                  (fx.send "254717135176" "Scheduled message from Locci Scheduler" "UjumbeSMS")
                data := some (outcomeJson
                  (fx.send "254717135176" "Scheduled message from Locci Scheduler" "UjumbeSMS"))
                request_info :=
                  { has_body_data := false
                    query_params := []
                    path := req.path
                    method := req.method }
                trace_id := trace_id } }
        sends := [defaultSend] } := by
  simp only [handler, hk, he, hc]
  simp only [handlerCore, hb, hq, interpretBody]
  cases h : fx.send "254717135176" "Scheduled message from Locci Scheduler" "UjumbeSMS" <;>
    simp [selectPathAB, selectPathC, outcomeMessage, outcomeJson, h]

/-- C4 (witness): the theorem applied at a concrete request with an absent
body and no query string, under a provider whose send succeeds. -/
theorem claimC4_witness :
    (handler envBoth fxOk pjPhoneMsg "trace0" reqEmpty).toOption.map
        (fun r => (r.response.body.message, r.response.body.data,
          r.response.status, r.sends)) =
      some ("SMS sent successfully", some Json.null, 200, [defaultSend]) := by
  rw [claimC4_empty_body_default_sms envBoth fxOk pjPhoneMsg "trace0" reqEmpty
    "key0" "mail0" rfl rfl rfl rfl rfl]
  rfl

/-- C5: for every request whose non-empty body deserializes to a structure
with all three fields absent and whose query parameters are empty, the
greeting path is selected: the message is the fixed greeting, no SMS
dispatch occurs, and data is null. -/
theorem claimC5_empty_object_greeting (env : String → Option String)
    (fx : SmsEffects) (parseJson : List Nat → Option Json)
    (trace_id : String) (req : Request) (k em : String)
    (hk : env "UJUMBESMS_API_KEY" = some k)
    (he : env "UJUMBESMS_EMAIL" = some em)
    (hc : fx.clientInit k em = Except.ok ())
    (hq : parse_query_params req.query = [])
    (hb : bodyBytes req.body ≠ [])
    (hp : (parseJson (bodyBytes req.body)).bind deserializeRequestData =
      some ⟨none, none, none⟩) :
    handler env fx parseJson trace_id req = Except.ok
      { response :=
          { status := 200
            headers := stdHeaders trace_id
            body :=
              { message := greetingMessage
                data := none
                request_info :=
                  { has_body_data := true
                    query_params := []
                    path := req.path
                    method := req.method }
                trace_id := trace_id } }
        sends := [] } := by
  simp only [handler, hk, he, hc]
  have hb2 : (bodyBytes req.body).isEmpty = false := by
    cases hbb : bodyBytes req.body
    · exact absurd hbb hb
    · rfl
  simp only [handlerCore, interpretBody, hb2, Bool.not_false, if_true, hp, hq]
  simp [selectPathAB, selectPathC, greetingMessage]

/-- C5 (witness): the theorem applied at a concrete request whose body
parses to the empty JSON object. -/
theorem claimC5_witness :
    (handler envBoth fxOk pjEmptyObj "trace0" reqBody).toOption.map
        (fun r => (r.response.body.message, r.response.body.data, r.sends)) =
      some (greetingMessage, none, []) := by
  rw [claimC5_empty_object_greeting envBoth fxOk pjEmptyObj "trace0" reqBody
    "key0" "mail0" rfl rfl rfl rfl (by decide) rfl]
  rfl

/-- C6: the Query Parser is total (it is a Lean function) and for every raw
query string it computes exactly what the spec's algorithm words: split on
the ampersand, split each pair on the first equals sign silently skipping
pairs lacking one, percent-decode key and value independently substituting
the empty string for a side whose decoding fails while keeping the pair,
and collect with later duplicate keys overwriting; an absent query string
yields the empty mapping. -/
theorem claimC6_query_refinement (q : Option (List Nat)) :
    parse_query_params q = parseQuerySpec q := by
  cases q with
  | none => rfl
  | some s =>
    simpa [parse_query_params, parseQuerySpec] using foldl_query_pairs (splitSep 38 s) []

/-- C7: for every request that produces a response, has_body_data is true
if and only if the body bytes were non-empty and deserialized successfully
to the structured shape; an empty body and an unparseable non-empty body
both yield false. -/
theorem claimC7_has_body_data (env : String → Option String) (fx : SmsEffects)
    (pj : List Nat → Option Json) (tid : String) (req : Request)
    (r : HandlerResult) (hok : handler env fx pj tid req = Except.ok r) :
    r.response.body.request_info.has_body_data = true ↔
      (bodyBytes req.body ≠ [] ∧
        ∃ d, (pj (bodyBytes req.body)).bind deserializeRequestData = some d) := by
  rw [handler_ok_elim env fx pj tid req r hok]
  simp only [handlerCore, interpretBody]
  cases hbb : bodyBytes req.body with
  | nil => simp
  | cons b bs => simp [Option.isSome_iff_exists]

/-- C7 (witness): the theorem applied at a concrete request with a
non-empty body that deserializes successfully. -/
theorem claimC7_witness :
    (handlerCore fxOk pjPhoneMsg "trace0" reqBody).response.body.request_info.has_body_data = true ↔
      (bodyBytes reqBody.body ≠ [] ∧
        ∃ d, (pjPhoneMsg (bodyBytes reqBody.body)).bind deserializeRequestData = some d) :=
  claimC7_has_body_data envBoth fxOk pjPhoneMsg "trace0" reqBody _ rfl

/-- C8: for every request that produces a response, the trace id appears
both as the trace_id field of the body and as the X-Trace-Id header, the
two values are identical, and both equal the single id generated at request
entry (the handler consumes exactly one generated id, before any
parsing). -/
theorem claimC8_trace_id (env : String → Option String) (fx : SmsEffects)
    (pj : List Nat → Option Json) (tid : String) (req : Request)
    (r : HandlerResult) (hok : handler env fx pj tid req = Except.ok r) :
    r.response.body.trace_id = tid ∧
    headerValue r.response.headers "X-Trace-Id" = some tid := by
  rw [handler_ok_elim env fx pj tid req r hok]
  exact ⟨rfl, rfl⟩

/-- C8 (witness): the theorem applied at a concrete request. -/
theorem claimC8_witness :
    (handlerCore fxOk pjPhoneMsg "trace0" reqBody).response.body.trace_id = "trace0" ∧
    headerValue (handlerCore fxOk pjPhoneMsg "trace0" reqBody).response.headers
      "X-Trace-Id" = some "trace0" :=
  claimC8_trace_id envBoth fxOk pjPhoneMsg "trace0" reqBody _ rfl

/-- C9: for every request that produces a response, at most one SMS
dispatch occurs: the default Path B send and the custom Path C send are
mutually exclusive. -/
theorem claimC9_at_most_one_send (env : String → Option String)
    (fx : SmsEffects) (pj : List Nat → Option Json) (tid : String)
    (req : Request) (r : HandlerResult)
    (hok : handler env fx pj tid req = Except.ok r) :
    r.sends.length ≤ 1 := by
  rw [handler_ok_elim env fx pj tid req r hok]
  exact handlerCore_sends_length fx pj tid req

/-- C9 (witness): the theorem applied at a concrete request. -/
theorem claimC9_witness :
    (handlerCore fxOk pjPhoneMsg "trace0" reqBody).sends.length ≤ 1 :=
  claimC9_at_most_one_send envBoth fxOk pjPhoneMsg "trace0" reqBody _ rfl

/-- C10: for every request whose body parses to a JSON object in which any
of the three known fields is present with a non-string, non-null value,
deserialization fails and the body is treated exactly like an unparseable
body: no structured data, has_body_data false, and — with empty query
parameters — the default Path B dispatch is attempted. -/
theorem claimC10_bad_field_type (env : String → Option String)
    (fx : SmsEffects) (pj : List Nat → Option Json) (tid : String)
    (req : Request) (k em : String) (name : String) (v : Json)
    (fields : List (String × Json))
    (hk : env "UJUMBESMS_API_KEY" = some k)
    (he : env "UJUMBESMS_EMAIL" = some em)
    (hc : fx.clientInit k em = Except.ok ())
    (hname : name = "phone" ∨ name = "message" ∨ name = "sender_id")
    (hmem : (name, v) ∈ fields)
    (hbad : decodeOptStr v = none)
    (hb : bodyBytes req.body ≠ [])
    (hp : pj (bodyBytes req.body) = some (Json.obj fields))
    (hq : parse_query_params req.query = []) :
    deserializeRequestData (Json.obj fields) = none ∧
    handler env fx pj tid req = Except.ok
      { response :=
          { status := 200
            headers := stdHeaders tid
            body :=
              { message := outcomeMessage
                  (fx.send "254717135176" "Scheduled message from Locci Scheduler" "UjumbeSMS")
                data := some (outcomeJson
                  (fx.send "254717135176" "Scheduled message from Locci Scheduler" "UjumbeSMS"))
                request_info :=
                  { has_body_data := false
                    query_params := []
                    path := req.path
                    method := req.method }
                trace_id := tid } }
        sends := [defaultSend] } := by
  have hdes : deserializeRequestData (Json.obj fields) = none := by
    apply deserializeRequestData_obj_none
    rcases hname with rfl | rfl | rfl
    · exact Or.inl (getOptField_eq_none_of_bad _ _ _ hmem hbad)
    · exact Or.inr (Or.inl (getOptField_eq_none_of_bad _ _ _ hmem hbad))
    · exact Or.inr (Or.inr (getOptField_eq_none_of_bad _ _ _ hmem hbad))
  refine ⟨hdes, ?_⟩
  simp only [handler, hk, he, hc]
  have hb2 : (bodyBytes req.body).isEmpty = false := by
    cases hbb : bodyBytes req.body
    · exact absurd hbb hb
    · rfl
  simp only [handlerCore, interpretBody, hb2, Bool.not_false, if_true, hp,
    Option.bind_some, hdes, hq]
  cases h : fx.send "254717135176" "Scheduled message from Locci Scheduler" "UjumbeSMS" <;>
    simp [selectPathAB, selectPathC, outcomeMessage, outcomeJson, h, hdes]

/-- C10 (witness): the theorem applied at a concrete request whose body
parses to an object binding phone to a number. -/
theorem claimC10_witness :
    deserializeRequestData (Json.obj [("phone", Json.num 123)]) = none ∧
    (handler envBoth fxOk pjBadPhone "trace0" reqBody).toOption.map
        (fun r => (r.response.body.request_info.has_body_data, r.sends)) =
      some (false, [defaultSend]) := by
  obtain ⟨h1, h2⟩ := claimC10_bad_field_type envBoth fxOk pjBadPhone "trace0"
    reqBody "key0" "mail0" "phone" (Json.num 123) [("phone", Json.num 123)]
    rfl rfl rfl (Or.inl rfl) (List.mem_singleton.mpr rfl) rfl (by decide) rfl rfl
  refine ⟨h1, ?_⟩
  rw [h2]
  rfl

end Scheduler
